import Mathlib

/-!
Verification of the resilient text-to-structured-notes conversion pipeline
(`NotionNotesConverter` in `main.py`).

The pipeline is embedded shallowly:

* JSON payloads decoded by `response.json()` are modelled by `JValue`;
  Python `str()` / `repr()` on such values by `pyStr` / `pyRepr`.
* Python string primitives are modelled over `String.data` (`List Char`):
  `str.strip` is `pyStrip`, `str.lower` is `pyLower`, single-character
  `str.split` is `splitP`, whitespace `str.split()` is `splitP` plus a
  filter, and the substring test `needle in hay` is `containsStr`.
  (`pyLower` lowercases per ASCII character and `pyStrip` removes the four
  ASCII whitespace characters; the inputs handled by this program are plain
  text, where these agree with Python.)
* The single HTTP attempt performed by `NotionNotesConverter.query` is
  modelled by the `HttpOutcome` datum describing what the network did;
  `query` maps it to the dictionary the method returns.
* `convert_to_notes` is embedded as `convert_to_notes`, a function of the
  input text and the `HttpOutcome`.  Exceptions that the method does NOT
  catch (index/attribute errors raised outside its `try` blocks) surface as
  `Except.error`; exceptions swallowed by its inner `try` route to the
  fallback, exactly as in the source.  The `ConvResult` record carries the
  returned text together with observation fields: which user-visible
  warning banner was shown, whether the remote client was invoked, whether
  the fallback synthesizer produced the text (provenance), whether the
  truncation warning fired, and the prompt string handed to the remote
  model (when one was built).
-/

/-- A decoded JSON value, as produced by `response.json()`. -/
inductive JValue where
  | null
  | bool (b : Bool)
  | num (n : Int)
  | str (s : String)
  | arr (items : List JValue)
  | obj (fields : List (String × JValue))

mutual

/-- Python `repr` on decoded JSON values.  String escaping is elided:
this is faithful for strings containing no quote, backslash or control
characters, which covers every value this development evaluates it on. -/
def pyRepr : JValue → String
  | .null => "None"
  | .bool b => if b then "True" else "False"
  | .num n => toString n
  | .str s => "'" ++ s ++ "'"
  | .arr items => "[" ++ pyReprList items ++ "]"
  | .obj fields => "\x7b" ++ pyReprFields fields ++ "\x7d"

/-- Comma-separated `repr` of list elements. -/
def pyReprList : List JValue → String
  | [] => ""
  | [x] => pyRepr x
  | x :: xs => pyRepr x ++ ", " ++ pyReprList xs

/-- Comma-separated `repr` of dictionary entries. -/
def pyReprFields : List (String × JValue) → String
  | [] => ""
  | [kv] => "'" ++ kv.1 ++ "': " ++ pyRepr kv.2
  | kv :: kvs => "'" ++ kv.1 ++ "': " ++ pyRepr kv.2 ++ ", " ++ pyReprFields kvs

end

/-- Python `str()` on decoded JSON values: the identity on strings,
`repr` on everything else. -/
def pyStr : JValue → String
  | .str s => s
  | v => pyRepr v

/-- Boolean test that `n` is a prefix of `h` (over character lists). -/
def listPrefix : List Char → List Char → Bool
  | [], _ => true
  | _ :: _, [] => false
  | a :: as, b :: bs => if a = b then listPrefix as bs else false

/-- Boolean test that `n` occurs contiguously inside `h`:
the model of Python's substring test `n in h`. -/
def listSub (n : List Char) : List Char → Bool
  | [] => listPrefix n []
  | c :: t => listPrefix n (c :: t) || listSub n t

/-- Python `needle in hay` on strings. -/
def containsStr (hay needle : String) : Bool :=
  listSub needle.data hay.data

/-- Boolean test that `s` is a suffix of `hay`. -/
def strSuffix (s hay : String) : Bool :=
  listPrefix s.data.reverse hay.data.reverse

/-- Split a character list at every character satisfying `p`
(the separators are dropped; empty chunks are kept).  With
`p c = (c = sep)` this is Python `text.split(sep)` for a one-character
separator. -/
def splitP (p : Char → Bool) : List Char → List (List Char)
  | [] => [[]]
  | c :: cs =>
    match splitP p cs with
    | [] => [[]]
    | h :: t => if p c then [] :: h :: t else (c :: h) :: t

/-- Python `str.strip()`: drop leading and trailing whitespace. -/
def stripChars (l : List Char) : List Char :=
  ((l.dropWhile Char.isWhitespace).reverse.dropWhile Char.isWhitespace).reverse

/-- Python `str.strip()` on strings. -/
def pyStrip (s : String) : String :=
  String.mk (stripChars s.data)

/-- Python `str.lower()` (ASCII letters). -/
def pyLower (s : String) : String :=
  String.mk (s.data.map Char.toLower)

/-- Sequential concatenation of string pieces, as produced by a Python
loop repeatedly appending to an accumulator. -/
def strConcat (l : List String) : String :=
  l.foldr (fun a b => a ++ b) ""

/-! ## The fallback synthesizer (`create_fallback_notes`, main.py 217-256) -/

/-- `lines = [line.strip() for line in text.split('\n') if line.strip()]`. -/
def linesOf (text : String) : List String :=
  ((((splitP (fun c => c = '\n') text.data)).map stripChars).filter
    (fun l => l ≠ [])).map String.mk

/-- `sentences = [s.strip() for s in text.split('.') if s.strip()]`. -/
def sentencesOf (text : String) : List String :=
  ((((splitP (fun c => c = '.') text.data)).map stripChars).filter
    (fun l => l ≠ [])).map String.mk

/-- `len(text.split())`: number of whitespace-delimited tokens. -/
def wordCount (text : String) : Nat :=
  ((splitP Char.isWhitespace text.data).filter (fun l => l ≠ [])).length

/-- The `## 📋 Summary` block (main.py 226-229). -/
def summaryBlock (text : String) : String :=
  "## 📋 Summary\n"
    ++ "- Content contains " ++ toString (sentencesOf text).length ++ " key points\n"
    ++ "- Organized into " ++ toString (min (linesOf text).length 10) ++ " main items\n"
    ++ "- Word count: approximately " ++ toString (wordCount text) ++ " words\n\n"

/-- The pieces appended by
`for i, line in enumerate(lines[:8], 1): if len(line) > 10: ...`
(main.py 235-237); a filtered-out line contributes the empty piece but
still advances the counter `i`. -/
def numberPieces (i : Nat) : List String → List String
  | [] => []
  | l :: ls =>
    (if 10 < l.length then toString i ++ ".** " ++ l ++ "\n\n" else "")
      :: numberPieces (i + 1) ls

/-- The numbered key-point text emitted when `lines` is non-empty. -/
def numberedKeyPoints (lines : List String) : String :=
  strConcat (numberPieces 1 (lines.take 8))

/-- The pieces appended by
`for i, sentence in enumerate(sentences[:6], 1): if len(sentence) > 15: ...`
(main.py 240-242; the counter `i` is unused in the emitted text). -/
def sentencePieces : List String → List String
  | [] => []
  | s :: ss =>
    (if 15 < s.length then "- " ++ pyStrip s ++ ".\n" else "") :: sentencePieces ss

/-- The unordered sentence list emitted when `lines` is empty. -/
def sentenceBullets (sentences : List String) : String :=
  strConcat (sentencePieces (sentences.take 6))

/-- The `## 📌 Key Points` block (main.py 232-242): numbered lines when
`lines` is non-empty (Python truthiness of `if lines:`), otherwise the
sentence list. -/
def keyPointsBlock (text : String) : String :=
  "## 📌 Key Points\n\n"
    ++ (if (linesOf text).isEmpty then sentenceBullets (sentencesOf text)
        else numberedKeyPoints (linesOf text))

/-- `action_keywords` (main.py 245). -/
def actionKeywords : List String :=
  ["need", "should", "must", "todo", "action", "follow up", "complete"]

/-- The fixed `## ✅ Action Items` block (main.py 247-250). -/
def actionItemsSection : String :=
  "\n## ✅ Action Items\n- Review and organize the above points\n"
    ++ "- Follow up on any mentioned tasks\n- Add more details where needed\n"

/-- The conditional action-items block (main.py 245-250). -/
def actionBlock (text : String) : String :=
  if actionKeywords.any (fun kw => containsStr (pyLower text) kw) then
    actionItemsSection
  else ""

/-- The note text carries an `Action Items` section: the fixed block of
main.py 247-250 (header plus the three boilerplate bullets, which the
code appends last) is a suffix of the text. -/
def hasActionSection (out : String) : Bool :=
  strSuffix actionItemsSection out

/-- `create_fallback_notes` (main.py 217-252): the body of its `try`
block, which consists solely of total string operations, so the
`except` branch at main.py 254-256 (`lastResortNote`) is unreachable in
this pure embedding. -/
def create_fallback_notes (text : String) : String :=
  "# 📝 Structured Notes\n\n" ++ summaryBlock text ++ keyPointsBlock text
    ++ actionBlock text

/-- The minimal last-resort note of the synthesizer's `except` branch
(main.py 256), kept for completeness of the embedding. -/
def lastResortNote (text : String) : String :=
  "# 📝 Notes\n\n## Content\n\n" ++ text
    ++ "\n\n*Note: Automatic structuring failed, showing original content.*"

/-! ## The remote client (`query`, main.py 110-139) -/

/-- What the network did for the single outbound request: an HTTP
response with status, decoded JSON body and raw text, or one of the
exception outcomes of the `requests` call (a body that fails to decode
as JSON is an `unexpectedException`). -/
inductive HttpOutcome where
  | response (status : Nat) (body : JValue) (text : String)
  | timeout
  | connectionError
  | requestException (msg : String)
  | unexpectedException (msg : String)

/-- A dictionary `{"error": msg}` as returned by `query` on failure. -/
def errObj (msg : String) : JValue :=
  .obj [("error", .str msg)]

/-- The error message chosen by `query`'s status/exception dispatch
(main.py 123-139); unused for status 200. -/
def remoteErrorMsg : HttpOutcome → String
  | .response 503 _ _ => "Model is currently loading. Please try again in a few moments."
  | .response 401 _ _ => "Invalid API token. Please check your Hugging Face API token."
  | .response 429 _ _ => "Rate limit exceeded. Please wait before making another request."
  | .response code _ text => "API request failed with status " ++ toString code ++ ": " ++ text
  | .timeout => "Request timed out. Please try again."
  | .connectionError => "Connection error. Please check your internet connection."
  | .requestException m => "Request failed: " ++ m
  | .unexpectedException m => "Unexpected error: " ++ m

/-- `query` (main.py 110-139): the decoded body on HTTP 200, otherwise a
dictionary carrying the corresponding error message. -/
def query : HttpOutcome → JValue
  | .response 200 body _ => body
  | o => errObj (remoteErrorMsg o)

/-- `o` is any outcome other than an HTTP 200 response, i.e. one that
`query` maps to an error dictionary (a `RemoteError` in the spec). -/
def isRemoteFailure : HttpOutcome → Bool
  | .response s _ _ => s ≠ 200
  | _ => true

/-! ## The conversion orchestrator (`convert_to_notes`, main.py 141-215) -/

/-- The hard-stop message for too-short input (main.py 146). -/
def tooShortMsg : String :=
  "❌ *Error:* Please provide more text content (at least 10 characters)."

/-- Truncation of over-long input (main.py 149-150): note that the
length test and the slice act on the raw, untrimmed text. -/
def truncInput (m : String) : String :=
  if 1000 < m.length then m.take 1000 ++ "..." else m

/-- Whether the truncation warning banner fires (main.py 151). -/
def truncFlag (m : String) : Bool :=
  1000 < m.length

/-- The conversion prompt (main.py 154-158). -/
def promptOf (m : String) : String :=
  "Convert the following messy text into clean, structured Notion-style notes "
    ++ "with proper headings, bullet points, and formatting:\n\nInput: " ++ m
    ++ "\n\nOutput: "

/-- Python `"error" in result` (main.py 177) on the decoded value:
key membership for a dict, element membership for a list, substring
test for a string; a `TypeError` (uncaught in `convert_to_notes`) for
any other type. -/
def checkErrorIn : JValue → Except String Bool
  | .obj fields => .ok (fields.any (fun kv => kv.1 == "error"))
  | .arr items =>
    .ok (items.any (fun v => match v with | .str s => s == "error" | _ => false))
  | .str s => .ok (containsStr s "error")
  | _ => .error "TypeError: argument of type is not iterable"

/-- Python `result["error"]` (main.py 178): dictionary lookup; a
`TypeError`/`KeyError` (uncaught) for anything else. -/
def errorField : JValue → Except String JValue
  | .obj fields =>
    match fields.find? (fun kv => kv.1 == "error") with
    | some kv => .ok kv.2
    | none => .error "KeyError: error"
  | _ => .error "TypeError: indices must be integers"

/-- The `generated_text` extraction (main.py 189-194), run inside the
inner `try`: `none` stands for an exception caught at main.py 213
(e.g. `.get` on a non-dict first element, or a non-string
`generated_text` flowing into the `in` test at main.py 197); any other
shape is stringified by `str(result)`. -/
def extractGenerated : JValue → Option String
  | .arr (x :: _) =>
    match x with
    | .obj fields =>
      match fields.find? (fun kv => kv.1 == "generated_text") with
      | some kv => match kv.2 with | .str s => some s | _ => none
      | none => some ""
    | _ => none
  | .obj fields =>
    match fields.find? (fun kv => kv.1 == "generated_text") with
    | some kv => match kv.2 with | .str s => some s | _ => none
    | none => some (pyStr (.obj fields))
  | v => some (pyStr v)

/-- The clean-up of the generated text (main.py 197-204): take what
follows the last `"Output:"` (if any), strip, then take what follows
the last `"Input:"` (if any) and strip again. -/
def extractCandidate (g : String) : String :=
  let r :=
    if containsStr g "Output:" then pyStrip ((g.splitOn "Output:").getLastD "")
    else pyStrip g
  if containsStr r "Input:" then pyStrip ((r.splitOn "Input:").getLastD "")
  else r

/-- `any(char in response for char in ['#', '*', '-'])` (main.py 207). -/
def hasMarker (s : String) : Bool :=
  ['#', '*', '-'].any (fun c => s.data.contains c)

/-- The quality-rejection warning banner (main.py 208). -/
def incompleteWarning : String :=
  "⚠ AI response seems incomplete. Using structured fallback."

/-- Result of one conversion: the returned text plus observations of
the run (warning banner shown, remote client invoked, text produced by
the fallback synthesizer, truncation warning fired, prompt built). -/
structure ConvResult where
  text : String
  warning : Option String
  remoteCalled : Bool
  fallbackUsed : Bool
  truncWarned : Bool
  prompt : Option String

/-- `convert_to_notes` (main.py 141-215) as a function of the input
text and of what the network did.  `Except.error` marks exceptions the
method does not catch (raised outside its inner `try`). -/
def convert_to_notes (messy : String) (outcome : HttpOutcome) :
    Except String ConvResult :=
  if messy = "" ∨ (pyStrip messy).length < 10 then
    .ok ⟨tooShortMsg, none, false, false, false, none⟩
  else
    let m2 := truncInput messy
    let result := query outcome
    match checkErrorIn result with
    | .error e => .error e
    | .ok true =>
      match errorField result with
      | .error e => .error e
      | .ok (.str msg) =>
        .ok ⟨create_fallback_notes m2, some ("❌ *API Error:* " ++ msg),
          true, true, truncFlag messy, some (promptOf m2)⟩
      | .ok _ => .error "AttributeError: lower"
    | .ok false =>
      match extractGenerated result with
      | none =>
        .ok ⟨create_fallback_notes m2, none, true, true, truncFlag messy,
          some (promptOf m2)⟩
      | some g =>
        let c := extractCandidate g
        if c.length < 20 ∨ hasMarker c = false then
          .ok ⟨create_fallback_notes m2, some incompleteWarning, true, true,
            truncFlag messy, some (promptOf m2)⟩
        else
          .ok ⟨c, none, true, false, truncFlag messy, some (promptOf m2)⟩

/-! ## Basic lemmas about the string model -/

theorem listPrefix_iff (n h : List Char) :
    listPrefix n h = true ↔ ∃ v, h = n ++ v := by
  induction n generalizing h with
  | nil => simp [listPrefix]
  | cons a as ih =>
    cases h with
    | nil => simp [listPrefix]
    | cons b bs =>
      simp only [listPrefix]
      constructor
      · intro hp
        by_cases hab : a = b
        · rw [if_pos hab] at hp
          obtain ⟨v, hv⟩ := (ih bs).mp hp
          exact ⟨v, by simp [hab, hv]⟩
        · rw [if_neg hab] at hp
          exact absurd hp (by simp)
      · rintro ⟨v, hv⟩
        simp only [List.cons_append, List.cons.injEq] at hv
        obtain ⟨rfl, hbs⟩ := hv
        rw [if_pos rfl]
        exact (ih bs).mpr ⟨v, hbs⟩

theorem listSub_iff (n h : List Char) :
    listSub n h = true ↔ ∃ u v, h = u ++ n ++ v := by
  induction h with
  | nil =>
    simp only [listSub, listPrefix_iff]
    constructor
    · rintro ⟨v, hv⟩
      exact ⟨[], v, by simpa using hv⟩
    · rintro ⟨u, v, hv⟩
      exact ⟨v, by rcases u with _ | ⟨c, u⟩ <;> simp_all⟩
  | cons c t ih =>
    simp only [listSub, Bool.or_eq_true, listPrefix_iff, ih]
    constructor
    · rintro (⟨v, hv⟩ | ⟨u, v, hv⟩)
      · exact ⟨[], v, by simpa using hv⟩
      · exact ⟨c :: u, v, by simp [hv]⟩
    · rintro ⟨u, v, hv⟩
      rcases u with _ | ⟨b, u⟩
      · exact Or.inl ⟨v, by simpa using hv⟩
      · refine Or.inr ⟨u, v, ?_⟩
        simpa using (List.cons.inj hv).2

theorem containsStr_iff (hay needle : String) :
    containsStr hay needle = true ↔
      ∃ u v, hay.data = u ++ needle.data ++ v := by
  exact listSub_iff needle.data hay.data

theorem containsStr_appendL (a b n : String)
    (h : containsStr a n = true) : containsStr (a ++ b) n = true := by
  rw [containsStr_iff] at h ⊢
  obtain ⟨u, v, hv⟩ := h
  exact ⟨u, v ++ b.data, by simp [String.data_append, hv]⟩

theorem containsStr_appendR (a b n : String)
    (h : containsStr b n = true) : containsStr (a ++ b) n = true := by
  rw [containsStr_iff] at h ⊢
  obtain ⟨u, v, hv⟩ := h
  exact ⟨a.data ++ u, v, by simp [String.data_append, hv]⟩

theorem containsStr_self (s : String) : containsStr s s = true := by
  rw [containsStr_iff]; exact ⟨[], [], by simp⟩

theorem stripChars_decomp (l : List Char) :
    ∃ u v, l = u ++ stripChars l ++ v := by
  refine ⟨l.takeWhile Char.isWhitespace,
    ((l.dropWhile Char.isWhitespace).reverse.takeWhile Char.isWhitespace).reverse, ?_⟩
  unfold stripChars
  conv_lhs => rw [← List.takeWhile_append_dropWhile (p := Char.isWhitespace) (l := l)]
  rw [List.append_assoc]
  congr 1
  conv_lhs =>
    rw [← List.reverse_reverse (l.dropWhile Char.isWhitespace),
      ← List.takeWhile_append_dropWhile (p := Char.isWhitespace)
        (l := (l.dropWhile Char.isWhitespace).reverse)]
  rw [List.reverse_append]

theorem containsStr_of_pyStrip (s n : String)
    (h : containsStr (pyStrip s) n = true) : containsStr s n = true := by
  rw [containsStr_iff] at h ⊢
  obtain ⟨u, v, hv⟩ := h
  obtain ⟨a, b, hab⟩ := stripChars_decomp s.data
  refine ⟨a ++ u, v ++ b, ?_⟩
  rw [hab]
  simp only [pyStrip] at hv
  rw [hv]
  simp [List.append_assoc]

theorem strSuffix_iff (s hay : String) :
    strSuffix s hay = true ↔ ∃ u, hay.data = u ++ s.data := by
  unfold strSuffix
  rw [listPrefix_iff]
  constructor
  · rintro ⟨v, hv⟩
    refine ⟨v.reverse, ?_⟩
    have := congrArg List.reverse hv
    simpa using this
  · rintro ⟨u, hu⟩
    exact ⟨u.reverse, by simp [hu]⟩

theorem strSuffix_append (a b : String) : strSuffix b (a ++ b) = true := by
  rw [strSuffix_iff]
  exact ⟨a.data, by simp [String.data_append]⟩

theorem strSuffix_appendL (s a b : String)
    (h : strSuffix s b = true) : strSuffix s (a ++ b) = true := by
  rw [strSuffix_iff] at h ⊢
  obtain ⟨u, hu⟩ := h
  exact ⟨a.data ++ u, by simp [String.data_append, hu]⟩

theorem strSuffix_trans (a b c : String)
    (hab : strSuffix a b = true) (hbc : strSuffix b c = true) :
    strSuffix a c = true := by
  rw [strSuffix_iff] at hab hbc ⊢
  obtain ⟨u, hu⟩ := hab
  obtain ⟨v, hv⟩ := hbc
  exact ⟨v ++ u, by simp [hv, hu]⟩

theorem strSuffix_eq_of_length (a b c : String)
    (ha : strSuffix a c = true) (hb : strSuffix b c = true)
    (hl : a.data.length = b.data.length) : a = b := by
  rw [strSuffix_iff] at ha hb
  obtain ⟨u, hu⟩ := ha
  obtain ⟨v, hv⟩ := hb
  apply String.ext
  have huv : u ++ a.data = v ++ b.data := by rw [← hu, ← hv]
  have hlen := congrArg List.length huv
  rw [List.length_append, List.length_append] at hlen
  have hul : u.length = v.length := by omega
  exact (List.append_inj huv hul).2

theorem append_empty_str (a : String) : a ++ "" = a := by
  apply String.ext
  simp [String.data_append]

/-- Every string in the list is empty or ends in `t1` or in `t2`; then
appending their concatenation to a string that ends in `t1` or `t2`
preserves that property. -/
theorem endsOk_strConcat (t1 t2 : String) (x : String) (ps : List String)
    (hx : strSuffix t1 x = true ∨ strSuffix t2 x = true)
    (hp : ∀ p ∈ ps, p = "" ∨ strSuffix t1 p = true ∨ strSuffix t2 p = true) :
    strSuffix t1 (x ++ strConcat ps) = true ∨
      strSuffix t2 (x ++ strConcat ps) = true := by
  induction ps generalizing x with
  | nil => simpa [strConcat, append_empty_str] using hx
  | cons p ps ih =>
    have hstep : x ++ strConcat (p :: ps) = (x ++ p) ++ strConcat ps := by
      apply String.ext
      simp [strConcat, String.data_append, List.append_assoc]
    rw [hstep]
    refine ih (x ++ p) ?_ (fun q hq => hp q (by simp [hq]))
    rcases hp p (by simp) with rfl | hsfx | hsfx
    · simpa [append_empty_str] using hx
    · exact Or.inl (strSuffix_appendL _ _ _ hsfx)
    · exact Or.inr (strSuffix_appendL _ _ _ hsfx)

theorem numberPieces_ends (i : Nat) (ls : List String) :
    ∀ p ∈ numberPieces i ls,
      p = "" ∨ strSuffix "\n\n" p = true ∨ strSuffix ".\n" p = true := by
  induction ls generalizing i with
  | nil => simp [numberPieces]
  | cons l ls ih =>
    intro p hp
    simp only [numberPieces, List.mem_cons] at hp
    rcases hp with rfl | hp
    · by_cases hlen : 10 < l.length
      · rw [if_pos hlen]
        refine Or.inr (Or.inl ?_)
        have : toString i ++ ".** " ++ l ++ "\n\n" =
            (toString i ++ ".** " ++ l) ++ "\n\n" := rfl
        rw [this]
        exact strSuffix_append _ _
      · rw [if_neg hlen]; exact Or.inl rfl
    · exact ih (i + 1) p hp

theorem sentencePieces_ends (ss : List String) :
    ∀ p ∈ sentencePieces ss,
      p = "" ∨ strSuffix "\n\n" p = true ∨ strSuffix ".\n" p = true := by
  induction ss with
  | nil => simp [sentencePieces]
  | cons s ss ih =>
    intro p hp
    simp only [sentencePieces, List.mem_cons] at hp
    rcases hp with rfl | hp
    · by_cases hlen : 15 < s.length
      · rw [if_pos hlen]
        refine Or.inr (Or.inr ?_)
        have : "- " ++ pyStrip s ++ ".\n" = ("- " ++ pyStrip s) ++ ".\n" := rfl
        rw [this]
        exact strSuffix_append _ _
      · rw [if_neg hlen]; exact Or.inl rfl
    · exact ih p hp

theorem splitP_ne_nil (p : Char → Bool) (l : List Char) : splitP p l ≠ [] := by
  cases l with
  | nil => simp [splitP]
  | cons c cs =>
    simp only [splitP]
    rcases h : splitP p cs with _ | ⟨h', t⟩
    · simp
    · by_cases hc : p c <;> simp [hc]

theorem splitP_cons_eq (p : Char → Bool) (a : Char) (as h : List Char)
    (t : List (List Char)) (hsp : splitP p as = h :: t) :
    splitP p (a :: as) =
      if p a = true then [] :: h :: t else (a :: h) :: t := by
  simp [splitP, hsp]

theorem splitP_chunk_subset (p : Char → Bool) (l : List Char) :
    ∀ chunk ∈ splitP p l, ∀ c ∈ chunk, c ∈ l := by
  induction l with
  | nil =>
    intro chunk hchunk c hc
    simp [splitP] at hchunk
    subst hchunk
    simp at hc
  | cons a as ih =>
    intro chunk hchunk c hc
    rcases hsp : splitP p as with _ | ⟨h, t⟩
    · exact absurd hsp (splitP_ne_nil p as)
    rw [splitP_cons_eq p a as h t hsp] at hchunk
    by_cases hpa : p a
    · rw [if_pos hpa] at hchunk
      rcases List.mem_cons.mp hchunk with rfl | hchunk2
      · simp at hc
      · exact List.mem_cons_of_mem a (ih chunk (hsp ▸ hchunk2) c hc)
    · rw [if_neg hpa] at hchunk
      rcases List.mem_cons.mp hchunk with rfl | hchunk2
      · rcases List.mem_cons.mp hc with rfl | hc2
        · exact List.mem_cons_self _ _
        · exact List.mem_cons_of_mem a
            (ih h (by rw [hsp]; exact List.mem_cons_self h t) c hc2)
      · exact List.mem_cons_of_mem a
          (ih chunk (by rw [hsp]; exact List.mem_cons_of_mem h hchunk2) c hc)

theorem splitP_cover (p : Char → Bool) (l : List Char) :
    ∀ c ∈ l, p c = true ∨ ∃ chunk ∈ splitP p l, c ∈ chunk := by
  induction l with
  | nil => simp
  | cons a as ih =>
    intro c hc
    rcases hsp : splitP p as with _ | ⟨h, t⟩
    · exact absurd hsp (splitP_ne_nil p as)
    rw [splitP_cons_eq p a as h t hsp]
    by_cases hpa : p a
    · rw [if_pos hpa]
      rcases List.mem_cons.mp hc with rfl | hc2
      · exact Or.inl hpa
      · rcases ih c hc2 with hp | ⟨chunk, hchunk, hcc⟩
        · exact Or.inl hp
        · refine Or.inr ⟨chunk, ?_, hcc⟩
          rw [hsp] at hchunk
          exact List.mem_cons_of_mem _ hchunk
    · rw [if_neg hpa]
      rcases List.mem_cons.mp hc with rfl | hc2
      · exact Or.inr ⟨_ :: h, List.mem_cons_self _ _, List.mem_cons_self _ _⟩
      · rcases ih c hc2 with hp | ⟨chunk, hchunk, hcc⟩
        · exact Or.inl hp
        · rw [hsp] at hchunk
          rcases List.mem_cons.mp hchunk with rfl | hchunk2
          · exact Or.inr ⟨_ :: chunk, List.mem_cons_self _ _,
              List.mem_cons_of_mem _ hcc⟩
          · exact Or.inr ⟨chunk, List.mem_cons_of_mem _ hchunk2, hcc⟩

theorem stripChars_eq_nil_iff (l : List Char) :
    stripChars l = [] ↔ ∀ c ∈ l, Char.isWhitespace c = true := by
  unfold stripChars
  rw [List.reverse_eq_nil_iff, List.dropWhile_eq_nil_iff]
  constructor
  · intro h c hc
    by_cases hcl : c ∈ l.dropWhile Char.isWhitespace
    · exact h c (by simpa using hcl)
    · have hsplit := List.takeWhile_append_dropWhile
        (p := Char.isWhitespace) (l := l)
      rw [← hsplit] at hc
      rcases List.mem_append.mp hc with htk | hdr
      · exact List.mem_takeWhile_imp htk
      · exact absurd hdr hcl
  · intro h c hc
    rw [List.mem_reverse] at hc
    exact h c ((List.dropWhile_sublist _).mem hc)

theorem str_append_assoc (a b c : String) : (a ++ b) ++ c = a ++ (b ++ c) := by
  apply String.ext
  simp [String.data_append, List.append_assoc]

theorem linesOf_eq_nil_ws (t : String) (h : linesOf t = []) :
    ∀ c ∈ t.data, Char.isWhitespace c = true := by
  have hfilter :
      (((splitP (fun c => c = '\n') t.data)).map stripChars).filter
        (fun l => l ≠ []) = [] := by
    unfold linesOf at h
    exact List.map_eq_nil_iff.mp h
  have hchunks : ∀ chunk ∈ splitP (fun c => c = '\n') t.data,
      stripChars chunk = [] := by
    intro chunk hchunk
    have := List.filter_eq_nil_iff.mp hfilter (stripChars chunk)
      (List.mem_map_of_mem stripChars hchunk)
    simpa using this
  intro c hc
  rcases splitP_cover (fun c => c = '\n') t.data c hc with hp | ⟨chunk, hchunk, hcc⟩
  · have : c = '\n' := by simpa using hp
    subst this
    decide
  · exact (stripChars_eq_nil_iff chunk).mp (hchunks chunk hchunk) c hcc

theorem sentencesOf_eq_nil_of_ws (t : String)
    (h : ∀ c ∈ t.data, Char.isWhitespace c = true) : sentencesOf t = [] := by
  unfold sentencesOf
  rw [List.map_eq_nil_iff, List.filter_eq_nil_iff]
  intro l hl
  obtain ⟨chunk, hchunk, rfl⟩ := List.mem_map.mp hl
  have hnil : stripChars chunk = [] := by
    rw [stripChars_eq_nil_iff]
    intro c hc
    exact h c (splitP_chunk_subset _ t.data chunk hchunk c hc)
  simp [hnil]

theorem query_failure (o : HttpOutcome) (h : isRemoteFailure o = true) :
    query o = errObj (remoteErrorMsg o) := by
  unfold query
  split
  · simp [isRemoteFailure] at h
  · rfl

theorem not_short_cond (messy : String) (hlen : 10 ≤ (pyStrip messy).length) :
    ¬(messy = "" ∨ (pyStrip messy).length < 10) := by
  rintro (rfl | hlt)
  · exact absurd hlen (by decide)
  · omega

/-- Any remote failure leads to the fallback branch of
`convert_to_notes`, with the error message shown as a banner. -/
theorem remote_failure_result (messy : String) (o : HttpOutcome)
    (hlen : 10 ≤ (pyStrip messy).length) (hf : isRemoteFailure o = true) :
    convert_to_notes messy o =
      .ok ⟨create_fallback_notes (truncInput messy),
        some ("❌ *API Error:* " ++ remoteErrorMsg o), true, true,
        truncFlag messy, some (promptOf (truncInput messy))⟩ := by
  have hcond := not_short_cond messy hlen
  unfold convert_to_notes
  rw [if_neg hcond, query_failure o hf]
  simp [checkErrorIn, errObj, errorField]

theorem summary_in_fallback (t : String) :
    containsStr (create_fallback_notes t) "Summary" = true := by
  unfold create_fallback_notes summaryBlock
  apply containsStr_appendL
  apply containsStr_appendL
  apply containsStr_appendR
  repeat apply containsStr_appendL
  decide

theorem fallback_nonempty (t : String) : create_fallback_notes t ≠ "" := by
  intro h
  obtain ⟨u, v, huv⟩ := (containsStr_iff _ _).mp (summary_in_fallback t)
  rw [h] at huv
  have hlen := congrArg List.length huv
  have h7 : ("Summary".data).length = 7 := rfl
  simp [List.length_append, h7] at hlen
  omega

/-- Common shape of the HTTP-200 path: once the decoded body passes the
`"error" in result` test and yields a generated string `s`, the result
is decided by the quality check on the extracted candidate. -/
theorem success_path (messy s txt : String) (body : JValue)
    (hlen : 10 ≤ (pyStrip messy).length)
    (hchk : checkErrorIn body = Except.ok false)
    (hext : extractGenerated body = some s) :
    convert_to_notes messy (.response 200 body txt) =
      if (extractCandidate s).length < 20 ∨ hasMarker (extractCandidate s) = false
      then
        .ok ⟨create_fallback_notes (truncInput messy), some incompleteWarning,
          true, true, truncFlag messy, some (promptOf (truncInput messy))⟩
      else
        .ok ⟨extractCandidate s, none, true, false, truncFlag messy,
          some (promptOf (truncInput messy))⟩ := by
  have hcond := not_short_cond messy hlen
  unfold convert_to_notes
  rw [if_neg hcond]
  simp only [query, hchk, hext]

/-! ## The claims -/

/-- Claim C1: every remote failure (any `RemoteError` variant, e.g. an
HTTP 503 response) is absorbed: the conversion returns `Except.ok` (it
does not fail), the error message is recorded as a warning banner, the
returned text is the fallback synthesizer's output (provenance
`Fallback`, i.e. `fallbackUsed = true`), and that text contains a
`Summary` section. -/
theorem remote_error_uses_fallback (messy : String) (o : HttpOutcome)
    (hlen : 10 ≤ (pyStrip messy).length) (hf : isRemoteFailure o = true) :
    convert_to_notes messy o =
      .ok ⟨create_fallback_notes (truncInput messy),
        some ("❌ *API Error:* " ++ remoteErrorMsg o), true, true,
        truncFlag messy, some (promptOf (truncInput messy))⟩ ∧
    containsStr (create_fallback_notes (truncInput messy)) "Summary" = true :=
  ⟨remote_failure_result messy o hlen hf, summary_in_fallback _⟩

/-- Witness for C1, at the HTTP 503 scenario of the spec: the result is
the fallback note with the model-loading warning. -/
theorem remote_error_uses_fallback_witness :
    convert_to_notes "need to follow up with John about the budget."
        (.response 503 .null "") =
      .ok ⟨create_fallback_notes
          (truncInput "need to follow up with John about the budget."),
        some ("❌ *API Error:* " ++ remoteErrorMsg (.response 503 .null "")),
        true, true,
        truncFlag "need to follow up with John about the budget.",
        some (promptOf
          (truncInput "need to follow up with John about the budget."))⟩ ∧
    containsStr (create_fallback_notes
        (truncInput "need to follow up with John about the budget."))
      "Summary" = true :=
  remote_error_uses_fallback "need to follow up with John about the budget."
    (.response 503 .null "") (by decide) (by decide)

/-- Claim C2: the fallback synthesizer is total — it is a plain Lean
function, and for every input string it returns a non-empty string
containing a `Summary` header (the `except` branch of the source is
unreachable because every step of the `try` body is a total string
operation). -/
theorem fallback_total_and_has_summary (s : String) :
    create_fallback_notes s ≠ "" ∧
      containsStr (create_fallback_notes s) "Summary" = true :=
  ⟨fallback_nonempty s, summary_in_fallback s⟩

/-- Claim C3: for every input whose trimmed length is below 10, the
pipeline returns the too-short input error; the result does not depend
on the remote outcome `o`, the remote client is not invoked
(`remoteCalled = false`) and the fallback synthesizer is not invoked
(`fallbackUsed = false`, text is the error message, no prompt is built). -/
theorem too_short_skips_stages (messy : String) (o : HttpOutcome)
    (h : (pyStrip messy).length < 10) :
    convert_to_notes messy o =
      .ok ⟨tooShortMsg, none, false, false, false, none⟩ := by
  unfold convert_to_notes
  rw [if_pos (Or.inr h)]

/-- Witness for C3 on the spec's five-character scenario. -/
theorem too_short_skips_stages_witness :
    convert_to_notes "hello" .timeout =
      .ok ⟨tooShortMsg, none, false, false, false, none⟩ :=
  too_short_skips_stages "hello" .timeout (by decide)

theorem dropWhile_replicate_neg (p : Char → Bool) (a : Char) (n : Nat)
    (h : p a = false) :
    List.dropWhile p (List.replicate n a) = List.replicate n a := by
  cases n with
  | zero => rfl
  | succ m =>
    rw [List.replicate_succ, List.dropWhile_cons, h]
    simp

theorem stripChars_replicate (a : Char) (n : Nat)
    (h : Char.isWhitespace a = false) :
    stripChars (List.replicate n a) = List.replicate n a := by
  unfold stripChars
  rw [dropWhile_replicate_neg _ _ _ h, List.reverse_replicate,
    dropWhile_replicate_neg _ _ _ h, List.reverse_replicate]

theorem stripChars_space_replicate (n : Nat) :
    stripChars (' ' :: List.replicate n 'a') = List.replicate n 'a' := by
  unfold stripChars
  rw [List.dropWhile_cons, if_pos (by decide : (' ').isWhitespace = true),
    dropWhile_replicate_neg _ _ _ (by decide), List.reverse_replicate,
    dropWhile_replicate_neg _ _ _ (by decide), List.reverse_replicate]

/-- Counterexample to claim C4 as stated: for the input made of one
leading space followed by 1001 letters, the trimmed length exceeds
1000, yet the text handed to the remote stage is NOT the first 1000
characters of the trimmed text plus the ellipsis marker — the code
slices the raw, untrimmed text (main.py 149-150). -/
theorem truncation_uses_raw_counterexample :
    1000 < (pyStrip (String.mk (' ' :: List.replicate 1001 'a'))).length ∧
    truncInput (String.mk (' ' :: List.replicate 1001 'a')) ≠
      (pyStrip (String.mk (' ' :: List.replicate 1001 'a'))).take 1000 ++ "..." := by
  have hstrip : pyStrip (String.mk (' ' :: List.replicate 1001 'a')) =
      String.mk (List.replicate 1001 'a') := by
    show String.mk (stripChars (' ' :: List.replicate 1001 'a')) = _
    rw [stripChars_space_replicate]
  have hslen : (pyStrip (String.mk (' ' :: List.replicate 1001 'a'))).length = 1001 := by
    rw [hstrip, String.length_mk, List.length_replicate]
  refine ⟨by omega, ?_⟩
  intro heq
  have hraw : (String.mk (' ' :: List.replicate 1001 'a')).length = 1002 := by
    rw [String.length_mk, List.length_cons, List.length_replicate]
  have htr : truncInput (String.mk (' ' :: List.replicate 1001 'a')) =
      (String.mk (' ' :: List.replicate 1001 'a')).take 1000 ++ "..." := by
    unfold truncInput
    rw [if_pos (by omega)]
  rw [htr, hstrip] at heq
  have hd := congrArg String.data heq
  rw [String.data_append, String.data_append, String.data_take,
    String.data_take] at hd
  have hd' : (' ' :: List.replicate 1001 'a').take 1000 ++ "...".data =
      (List.replicate 1001 'a').take 1000 ++ "...".data := hd
  rw [List.take_succ_cons, List.take_replicate, List.take_replicate] at hd'
  rw [show (1000 : Nat) ⊓ 1001 = 999 + 1 from by decide, List.replicate_succ,
    List.cons_append, List.cons_append] at hd'
  exact absurd (List.cons.inj hd').1 (by decide)

/-- Claim C4, amended: the truncation test and the slice act on the
raw, untrimmed input — for every input whose RAW length exceeds 1000,
the text handed to the remote stage (inside the prompt, and as the
fallback synthesizer's input) is exactly the first 1000 characters of
the raw input followed by `"..."`, and the truncation warning fires. -/
theorem truncation_amended (messy : String) (o : HttpOutcome)
    (h1000 : 1000 < messy.length) (hlen : 10 ≤ (pyStrip messy).length)
    (hf : isRemoteFailure o = true) :
    convert_to_notes messy o =
      .ok ⟨create_fallback_notes (messy.take 1000 ++ "..."),
        some ("❌ *API Error:* " ++ remoteErrorMsg o), true, true, true,
        some (promptOf (messy.take 1000 ++ "..."))⟩ := by
  have h := remote_failure_result messy o hlen hf
  have ht : truncInput messy = messy.take 1000 ++ "..." := if_pos h1000
  have hfl : truncFlag messy = true := decide_eq_true h1000
  rw [h, ht, hfl]

/-- Witness for the amended C4 at a concrete 1001-character input. -/
theorem truncation_amended_witness :
    convert_to_notes (String.mk (List.replicate 1001 'b')) .timeout =
      .ok ⟨create_fallback_notes
          ((String.mk (List.replicate 1001 'b')).take 1000 ++ "..."),
        some ("❌ *API Error:* " ++ remoteErrorMsg .timeout), true, true, true,
        some (promptOf ((String.mk (List.replicate 1001 'b')).take 1000 ++ "..."))⟩ :=
  truncation_amended (String.mk (List.replicate 1001 'b')) .timeout
    (by rw [String.length_mk, List.length_replicate]; omega)
    (by show 10 ≤ (String.mk (stripChars (List.replicate 1001 'b'))).length
        rw [stripChars_replicate _ _ (by decide), String.length_mk,
          List.length_replicate]
        omega)
    rfl

/-- Counterexample to claim C5 as stated: an HTTP 200 body that is
neither a sequence of objects nor an object with a `generated_text`
field (here: a bare JSON string) is NOT classified as an error routed
to fallback — `convert_to_notes` stringifies it (main.py 194), and
since it passes the quality check it is returned as the model result
(`fallbackUsed = false`). -/
theorem unrecognized_shape_counterexample :
    convert_to_notes "meeting notes about the quarterly budget plan"
        (.response 200 (.str "## Meeting Plan\n- first item\n- second item") "") =
      .ok ⟨"## Meeting Plan\n- first item\n- second item", none, true, false,
        false,
        some (promptOf "meeting notes about the quarterly budget plan")⟩ := by
  rfl

/-- Claim C5, amended: on HTTP 200 with an unrecognized body shape the
client sets `generated_text = str(result)` and proceeds to validation;
for a bare-string body that contains no `"error"`, no `"Output:"` and
no `"Input:"` marker, whose stripped form is at least 20 characters
long and has a structural marker, the conversion returns that stripped
body as the model result — it does not route to the fallback. -/
theorem unrecognized_shape_amended (messy s txt : String)
    (hlen : 10 ≤ (pyStrip messy).length)
    (herr : containsStr s "error" = false)
    (hout : containsStr s "Output:" = false)
    (hin : containsStr s "Input:" = false)
    (h20 : 20 ≤ (pyStrip s).length)
    (hmk : hasMarker (pyStrip s) = true) :
    convert_to_notes messy (.response 200 (.str s) txt) =
      .ok ⟨pyStrip s, none, true, false, truncFlag messy,
        some (promptOf (truncInput messy))⟩ := by
  have hchk : checkErrorIn (.str s) = .ok false := by
    simp [checkErrorIn, herr]
  have hext : extractGenerated (.str s) = some s := rfl
  have hin2 : containsStr (pyStrip s) "Input:" = false := by
    cases hq : containsStr (pyStrip s) "Input:" with
    | false => rfl
    | true => exact absurd (containsStr_of_pyStrip s "Input:" hq) (by simp [hin])
  have hcand : extractCandidate s = pyStrip s := by
    simp [extractCandidate, hout, hin2]
  rw [success_path messy s txt (.str s) hlen hchk hext, hcand,
    if_neg (by rintro (hlt | hm) <;> [omega; exact absurd hm (by simp [hmk])])]

/-- Witness for the amended C5: a long structured bare-string body is
returned as the model result. -/
theorem unrecognized_shape_amended_witness :
    convert_to_notes "lecture summary about machine learning basics"
        (.response 200 (.str "## Topics\n- supervised\n- unsupervised") "") =
      .ok ⟨pyStrip "## Topics\n- supervised\n- unsupervised", none, true, false,
        truncFlag "lecture summary about machine learning basics",
        some (promptOf
          (truncInput "lecture summary about machine learning basics"))⟩ :=
  unrecognized_shape_amended "lecture summary about machine learning basics"
    "## Topics\n- supervised\n- unsupervised" "" (by decide) (by decide)
    (by decide) (by decide) (by decide) (by decide)

/-- Claim C8: for the candidate extracted from a well-formed remote
response (a list whose first element carries `generated_text`), the
validator rejects — routing to the fallback, with the incompleteness
warning — whenever the candidate is under 20 characters (regardless of
content) or contains none of `#`, `*`, `-`; otherwise the (already
trimmed) candidate is accepted and returned as the result with model
provenance (`fallbackUsed = false`, no warning). -/
theorem validator_accept_reject (messy s txt : String)
    (hlen : 10 ≤ (pyStrip messy).length) :
    ((extractCandidate s).length < 20 ∨ hasMarker (extractCandidate s) = false →
      convert_to_notes messy
          (.response 200 (.arr [.obj [("generated_text", .str s)]]) txt) =
        .ok ⟨create_fallback_notes (truncInput messy), some incompleteWarning,
          true, true, truncFlag messy, some (promptOf (truncInput messy))⟩) ∧
    (20 ≤ (extractCandidate s).length → hasMarker (extractCandidate s) = true →
      convert_to_notes messy
          (.response 200 (.arr [.obj [("generated_text", .str s)]]) txt) =
        .ok ⟨extractCandidate s, none, true, false, truncFlag messy,
          some (promptOf (truncInput messy))⟩) := by
  have hchk : checkErrorIn (.arr [.obj [("generated_text", .str s)]]) =
      .ok false := by
    simp [checkErrorIn]
  have hext : extractGenerated (.arr [.obj [("generated_text", .str s)]]) =
      some s := by
    simp [extractGenerated, List.find?]
  have hsp := success_path messy s txt _ hlen hchk hext
  constructor
  · intro hrej
    rw [hsp, if_pos hrej]
  · intro h20 hmk
    rw [hsp, if_neg (by rintro (hlt | hm) <;>
      [omega; exact absurd hm (by simp [hmk])])]

/-- Witness for C8, accept case: spec scenario C, where the generated
text is structured and long enough. -/
theorem validator_accept_reject_witness :
    convert_to_notes "meeting agenda for the next planning session"
        (.response 200
          (.arr [.obj [("generated_text",
            .str "## Plan\n- item one\n- item two")]]) "") =
      .ok ⟨extractCandidate "## Plan\n- item one\n- item two", none, true, false,
        truncFlag "meeting agenda for the next planning session",
        some (promptOf
          (truncInput "meeting agenda for the next planning session"))⟩ :=
  (validator_accept_reject "meeting agenda for the next planning session"
      "## Plan\n- item one\n- item two" "" (by decide)).2
    (by decide) (by decide)

set_option maxRecDepth 8000 in
/-- Counterexample to claim C6 as stated: on an input with nine
non-empty lines, the Summary does NOT report `min(line count, 8)` items
(which would be 8) — it reports 9, because the code caps the summary
count at 10 (main.py 228) while the Key Points section caps at 8. -/
theorem summary_cap_counterexample :
    (linesOf "alpha beta 1\nalpha beta 2\nalpha beta 3\nalpha beta 4\nalpha beta 5\nalpha beta 6\nalpha beta 7\nalpha beta 8\nalpha beta 9").length = 9 ∧
    containsStr
      (create_fallback_notes "alpha beta 1\nalpha beta 2\nalpha beta 3\nalpha beta 4\nalpha beta 5\nalpha beta 6\nalpha beta 7\nalpha beta 8\nalpha beta 9")
      ("- Organized into "
        ++ toString (min (linesOf "alpha beta 1\nalpha beta 2\nalpha beta 3\nalpha beta 4\nalpha beta 5\nalpha beta 6\nalpha beta 7\nalpha beta 8\nalpha beta 9").length 8)
        ++ " main items\n") = false ∧
    containsStr
      (create_fallback_notes "alpha beta 1\nalpha beta 2\nalpha beta 3\nalpha beta 4\nalpha beta 5\nalpha beta 6\nalpha beta 7\nalpha beta 8\nalpha beta 9")
      "- Organized into 9 main items\n" = true := by
  refine ⟨by decide, by decide, by decide⟩

/-- Claim C6, amended: the Summary always reports
`min(line count, 10)` as the item count — a cap of 10, not the cap of
8 used by the Key Points section. -/
theorem summary_cap_amended (t : String) :
    containsStr (create_fallback_notes t)
      ("- Organized into " ++ toString (min (linesOf t).length 10)
        ++ " main items\n") = true := by
  unfold create_fallback_notes
  apply containsStr_appendL
  apply containsStr_appendL
  apply containsStr_appendR
  unfold summaryBlock
  rw [containsStr_iff]
  refine ⟨"## 📋 Summary\n".data ++ "- Content contains ".data
      ++ (toString (sentencesOf t).length).data ++ " key points\n".data,
    "- Word count: approximately ".data ++ (toString (wordCount t)).data
      ++ " words\n\n".data, ?_⟩
  simp only [String.data_append, List.append_assoc]

set_option maxRecDepth 8000 in
/-- Counterexample to claim C7 as stated: the input
`"abc def\nghi jklm."` has non-empty lines, none longer than 10
characters, and a sentence longer than 15 characters — yet the
synthesizer does NOT fall back to rendering sentences: the sentence
branch runs only when `lines` is empty (main.py 234), so no `- abc def`
bullet appears anywhere in the output. -/
theorem sentence_fallback_counterexample :
    linesOf "abc def\nghi jklm." ≠ [] ∧
    (linesOf "abc def\nghi jklm.").all (fun l => decide (l.length ≤ 10)) = true ∧
    (sentencesOf "abc def\nghi jklm.").any (fun s => decide (15 < s.length)) = true ∧
    containsStr (create_fallback_notes "abc def\nghi jklm.") "- abc def" = false := by
  refine ⟨by decide, by decide, by decide, by decide⟩

/-- Claim C7, amended: the sentence branch is taken only when there are
no non-empty lines at all — and in that case the input is whitespace-only,
so the sentence list is empty as well and the Key Points section is
empty (nothing is ever rendered from sentences; when non-empty lines
exist but none survives the >10 filter, the numbered branch emits
nothing instead of falling back). -/
theorem sentence_fallback_amended (t : String) (h : linesOf t = []) :
    sentencesOf t = [] ∧ keyPointsBlock t = "## 📌 Key Points\n\n" := by
  have hws := linesOf_eq_nil_ws t h
  have hs := sentencesOf_eq_nil_of_ws t hws
  refine ⟨hs, ?_⟩
  unfold keyPointsBlock
  rw [h, hs]
  simp [sentenceBullets, sentencePieces, strConcat, append_empty_str]

/-- Witness for the amended C7 at a whitespace-only input. -/
theorem sentence_fallback_amended_witness :
    sentencesOf "  \n " = [] ∧ keyPointsBlock "  \n " = "## 📌 Key Points\n\n" :=
  sentence_fallback_amended "  \n " (by decide)

/-- Without the action block, the note text ends in a blank line
(`"\n\n"`) or in a sentence bullet terminator (`".\n"`). -/
theorem notes_sans_action_ends (t : String) :
    strSuffix "\n\n"
        ("# 📝 Structured Notes\n\n" ++ summaryBlock t ++ keyPointsBlock t) = true ∨
    strSuffix ".\n"
        ("# 📝 Structured Notes\n\n" ++ summaryBlock t ++ keyPointsBlock t) = true := by
  unfold keyPointsBlock
  rw [← str_append_assoc]
  have hpre : strSuffix "\n\n"
      (("# 📝 Structured Notes\n\n" ++ summaryBlock t)
        ++ "## 📌 Key Points\n\n") = true := by
    apply strSuffix_appendL
    rw [show ("## 📌 Key Points\n\n" : String) =
      "## 📌 Key Points" ++ "\n\n" from rfl]
    exact strSuffix_append _ _
  by_cases hempty : (linesOf t).isEmpty
  · rw [if_pos hempty]
    unfold sentenceBullets
    exact endsOk_strConcat "\n\n" ".\n" _ _ (Or.inl hpre) (sentencePieces_ends _)
  · rw [if_neg hempty]
    unfold numberedKeyPoints
    exact endsOk_strConcat "\n\n" ".\n" _ _ (Or.inl hpre) (numberPieces_ends 1 _)

/-- Claim C9: the fallback output carries an `Action Items` section
exactly when some keyword of the fixed set occurs (as a substring) in
the lowercased input; the section, when present, is the fixed block of
three boilerplate bullets appended at the very end (formalized as that
block being a suffix of the output), and it then also contains the
`## ✅ Action Items` header. -/
theorem action_items_iff (t : String) :
    (hasActionSection (create_fallback_notes t) = true ↔
      actionKeywords.any (fun kw => containsStr (pyLower t) kw) = true) ∧
    (actionKeywords.any (fun kw => containsStr (pyLower t) kw) = true →
      containsStr (create_fallback_notes t) "## ✅ Action Items" = true) := by
  by_cases hc : actionKeywords.any (fun kw => containsStr (pyLower t) kw) = true
  · have hnotes : create_fallback_notes t =
        ("# 📝 Structured Notes\n\n" ++ summaryBlock t ++ keyPointsBlock t)
          ++ actionItemsSection := by
      unfold create_fallback_notes actionBlock
      rw [if_pos hc]
    refine ⟨?_, ?_⟩
    · rw [hnotes]
      refine ⟨fun _ => hc, fun _ => ?_⟩
      unfold hasActionSection
      exact strSuffix_append _ _
    · intro _
      rw [hnotes]
      apply containsStr_appendR
      decide
  · have hact : actionBlock t = "" := by
      unfold actionBlock
      rw [if_neg hc]
    have hnotes : create_fallback_notes t =
        "# 📝 Structured Notes\n\n" ++ summaryBlock t ++ keyPointsBlock t := by
      unfold create_fallback_notes
      rw [hact, append_empty_str]
    have hno : hasActionSection (create_fallback_notes t) = false := by
      cases hq : hasActionSection (create_fallback_notes t) with
      | false => rfl
      | true =>
        exfalso
        unfold hasActionSection at hq
        have hd : strSuffix "d\n" (create_fallback_notes t) = true :=
          strSuffix_trans _ _ _ (by decide) hq
        rw [hnotes] at hd
        rcases notes_sans_action_ends t with h2 | h2
        · exact absurd (strSuffix_eq_of_length "d\n" "\n\n" _ hd h2 (by decide))
            (by decide)
        · exact absurd (strSuffix_eq_of_length "d\n" ".\n" _ hd h2 (by decide))
            (by decide)
    exact ⟨by rw [hno]; exact iff_of_false (by simp) hc, fun h => absurd h hc⟩

set_option maxRecDepth 8000 in
/-- Claim C10: the action-items trigger is plain substring containment,
not word matching — an input whose only keyword occurrences are inside
the words `transaction` (containing `action`) and `mustard`
(containing `must`) still gets an `Action Items` section. -/
theorem substring_trigger_action_items :
    containsStr "the transaction was recorded in the mustard colored ledger book"
      "transaction" = true ∧
    containsStr "the transaction was recorded in the mustard colored ledger book"
      "mustard" = true ∧
    hasActionSection (create_fallback_notes
      "the transaction was recorded in the mustard colored ledger book") = true ∧
    containsStr (create_fallback_notes
        "the transaction was recorded in the mustard colored ledger book")
      "## ✅ Action Items" = true := by
  refine ⟨by decide, by decide, by decide, by decide⟩

/-- Witness for C2 at the empty input. -/
theorem fallback_total_and_has_summary_witness :
    create_fallback_notes "" ≠ "" ∧
      containsStr (create_fallback_notes "") "Summary" = true :=
  fallback_total_and_has_summary ""

/-- Witness for C9: an input containing the keyword `need` yields the
`Action Items` header. -/
theorem action_items_iff_witness :
    containsStr (create_fallback_notes "we need to review the budget today")
      "## ✅ Action Items" = true :=
  (action_items_iff "we need to review the budget today").2 (by decide)
